import Mathlib

/-!
Shallow embedding of `src/nps_scraper.py` (class NPSCampsiteScraper).

The script resolves a park name to campgrounds via a search endpoint
(`search_campgrounds`), checks per-campground month availability and filters
to the exact target day (`check_availability`), sends an email notification
(`send_notification`), and orchestrates a fixed-interval polling loop
(`poll_availability`).  HTTP responses, the attempt-indexed behaviour of the
upstream endpoints, and the mail transport are modelled as an explicit
environment; the polling loop additionally returns a trace of its observable
effects (queries issued, notifier invocations, sleeps).
-/

namespace NPS

/-- A raw JSON field value as Python sees it: either `None` or a string.
Used to distinguish an absent key from a present key holding null or "". -/
inductive Jv where
  | null : Jv
  | str : String → Jv
deriving DecidableEq, Repr

/-- A campground extracted by `search_campgrounds`.  The id comes from the
`data-entity-id` attribute via `Tag.get`, which yields Python `None` when the
attribute is absent, so the id is optional. -/
structure Campground where
  id : Option String
  name : String
deriving DecidableEq, Repr

/-- One available site as built in `check_availability` (keys `site_id`,
`site_name`, `type` of the result dict). -/
structure Site where
  site_id : String
  site_name : Jv
  site_type : Jv
deriving DecidableEq, Repr

/-- The success value returned by `poll_availability` (keys `campground`,
`available_sites`, `date`). -/
structure PollResult where
  campground : String
  available_sites : List Site
  date : String
deriving DecidableEq, Repr

/-- One `.search-result-item` element of the search results page.
`entity_id` is the `data-entity-id` attribute (`Tag.get`: `None` when
absent, no exception).  `nameText` is the text of the `.entity-name`
child; when the child is absent, `select_one` returns `None` and the
subsequent `.text` raises `AttributeError`, which the loop catches. -/
structure SearchEntry where
  entity_id : Option String
  nameText : Option String
deriving DecidableEq, Repr

/-- An HTTP response of the search endpoint: status code plus the parsed
`.search-result-item` elements. -/
structure SearchResponse where
  status : Nat
  results : List SearchEntry
deriving DecidableEq, Repr

/-- Raw per-site data of the availability endpoint: the `availabilities`
map (date key to status string) and the optional `site` and `type` fields
(`none` models an absent key; `some v` a present key with value `v`). -/
structure SiteData where
  availabilities : List (String × String)
  site : Option Jv
  stype : Option Jv
deriving DecidableEq, Repr

/-- An HTTP response of the availability endpoint: status code plus the
`campsites` object; `none` models a body on which `response.json()` raises
`json.JSONDecodeError`. -/
structure AvailResponse where
  status : Nat
  campsites : Option (List (String × SiteData))
deriving DecidableEq, Repr

/-- Python `str.strip()`: drop leading and trailing whitespace. -/
def strip (s : String) : String :=
  String.mk
    ((((s.toList.dropWhile Char.isWhitespace).reverse).dropWhile
      Char.isWhitespace).reverse)

/-- `search_campgrounds` on a given response: non-200 status yields `[]`;
otherwise each result element contributes `(data-entity-id, entity-name
text stripped)`, and an element whose `.entity-name` child is missing is
skipped (its `AttributeError` is caught).  A missing `data-entity-id`
does not raise: the entry is kept with id `None`. -/
def search_campgrounds (resp : SearchResponse) : List Campground :=
  if resp.status ≠ 200 then []
  else resp.results.filterMap fun r =>
    match r.nameText with
    | none => none
    | some t => some ⟨r.entity_id, strip t⟩

/-- Whether a character sequence is non-empty and all decimal digits. -/
def allDigits (l : List Char) : Bool :=
  decide (l.length > 0) && l.all Char.isDigit

/-- Decimal value of a digit sequence. -/
def natOf (l : List Char) : Nat :=
  l.foldl (fun a c => 10 * a + (c.toNat - 48)) 0

/-- Split a character sequence at every hyphen (the pieces between,
before, and after hyphens, in order; empty pieces included). -/
def splitDash : List Char → List (List Char)
  | [] => [[]]
  | c :: rest =>
    if c = '-' then [] :: splitDash rest
    else
      match splitDash rest with
      | [] => [[c]]
      | g :: gs => (c :: g) :: gs

/-- Gregorian leap-year rule, as `datetime` uses. -/
def isLeapYear (y : Nat) : Bool :=
  (y % 4 == 0 && y % 100 != 0) || y % 400 == 0

/-- Number of days of month `m` of year `y`. -/
def daysInMonth (y m : Nat) : Nat :=
  if m = 2 then (if isLeapYear y then 29 else 28)
  else if m = 4 ∨ m = 6 ∨ m = 9 ∨ m = 11 then 30
  else 31

/-- Model of `datetime.strptime(date, "%Y-%m-%d")`: a four-digit year with
value at least 1, a one- or two-digit month in 1..12, a one- or two-digit
day in 1..31 that exists in that month, separated by literal hyphens with
no surrounding text; any other input raises `ValueError`, modelled as
`none`. -/
def parse_date (s : String) : Option (Nat × Nat × Nat) :=
  match splitDash s.toList with
  | [ys, ms, ds] =>
    if ys.length = 4 && allDigits ys
        && (ms.length = 1 || ms.length = 2) && allDigits ms
        && (ds.length = 1 || ds.length = 2) && allDigits ds then
      let y := natOf ys
      let m := natOf ms
      let d := natOf ds
      if 1 ≤ y && 1 ≤ m && m ≤ 12 && 1 ≤ d && d ≤ daysInMonth y m then
        some (y, m, d)
      else none
    else none
  | _ => none

/-- `date.replace('-', '')`: the target-day key used to index the
`availabilities` map. -/
def dateKey (s : String) : String :=
  String.mk (s.toList.filter fun c => c ≠ '-')

/-- `dict.get(k, d)` on an association list. -/
def getD (l : List (String × String)) (k d : String) : String :=
  match l.find? fun p => p.1 == k with
  | some p => p.2
  | none => d

/-- The site dict built for an available site: `site_id`, then
`site_data.get('site', "Site " + site_id)` and
`site_data.get('type', 'Unknown')`. -/
def mkSite (site_id : String) (sd : SiteData) : Site :=
  ⟨site_id, sd.site.getD (Jv.str ("Site " ++ site_id)),
    sd.stype.getD (Jv.str "Unknown")⟩

/-- `check_availability(campground_id, date)` on a given response.  The
date is parsed with `strptime` before the request is issued; a malformed
date raises `ValueError`, which nothing catches (`Except.error ()`).
A non-200 status or an unparsable body recovers to `[]`.  Otherwise the
sites whose status under the hyphen-stripped date key equals the literal
"Available" are collected in response order. -/
def check_availability (resp : AvailResponse) (date : String) :
    Except Unit (List Site) :=
  if (parse_date date).isNone then .error ()
  else if resp.status ≠ 200 then .ok []
  else match resp.campsites with
    | none => .ok []
    | some l =>
      .ok (l.filterMap fun p =>
        if getD p.2.availabilities (dateKey date) "" = "Available" then
          some (mkSite p.1 p.2)
        else none)

/-- `send_notification(email, campground_name, available_sites, date)`:
returns the function result paired with the number of interactions handed
to the mail transport.  An empty site list returns `False` before any
transport work; otherwise one delivery is attempted and `mailOk` says
whether it succeeds (a failure is caught and yields `False`). -/
def send_notification (mailOk : Bool) (email campground_name : String)
    (available_sites : List Site) (date : String) : Bool × Nat :=
  if available_sites.isEmpty then (false, 0)
  else (mailOk, 1)

/-- The environment a poll invocation runs against: the search response of
each attempt, the availability response of each (attempt, campground id)
pair, and whether mail delivery succeeds. -/
structure Env where
  searchResp : Nat → SearchResponse
  availResp : Nat → Option String → AvailResponse
  mailOk : Bool

/-- The campgrounds resolved in a given attempt. -/
def campgroundsOf (env : Env) (attempt : Nat) : List Campground :=
  search_campgrounds (env.searchResp attempt)

/-- Outcome of scanning the campground list of one attempt: the ids whose
availability was queried (in order), the number of `send_notification`
invocations, and either the propagated `ValueError` or the optional hit. -/
structure ScanOut where
  queries : List (Option String)
  notifies : Nat
  res : Except Unit (Option PollResult)
deriving Repr

/-- The inner `for campground in campgrounds` loop of `poll_availability`:
each campground is queried in order; the first one with a non-empty site
list stops the scan, notifies when an email is configured, and produces
the result dict.  A `ValueError` from `check_availability` (malformed
date, raised before its HTTP query) propagates. -/
def scanAttempt (env : Env) (date : String) (email : Option String)
    (attempt : Nat) : List Campground → ScanOut
  | [] => ⟨[], 0, .ok none⟩
  | cg :: rest =>
    match check_availability (env.availResp attempt cg.id) date with
    | .error e => ⟨[], 0, .error e⟩
    | .ok sites =>
      if sites.isEmpty then
        let o := scanAttempt env date email attempt rest
        ⟨cg.id :: o.queries, o.notifies, o.res⟩
      else
        ⟨[cg.id], if email.isSome then 1 else 0,
          .ok (some ⟨cg.name, sites, date⟩)⟩

/-- Observable outcome of a poll invocation: the returned value (or the
propagated exception), the number of search queries issued, the
availability queries issued as (attempt, campground id) pairs in order,
the number of `send_notification` invocations, and the list of sleep
durations in order. -/
structure PollOut where
  res : Except Unit (Option PollResult)
  searches : Nat
  availQueries : List (Nat × Option String)
  notifies : Nat
  sleeps : List Nat
deriving Repr

/-- The `while attempts < max_attempts` loop of `poll_availability`,
written as fuel recursion: `attempt` is the current value of `attempts`
and `fuel` is `max_attempts - attempts`.  Each iteration issues one
search query, scans the resolved campgrounds, and either returns the hit,
propagates the exception, or sleeps for `interval` exactly when a further
attempt will follow. -/
def pollLoop (env : Env) (date : String) (interval : Nat)
    (email : Option String) : Nat → Nat → PollOut
  | _, 0 => ⟨.ok none, 0, [], 0, []⟩
  | attempt, fuel + 1 =>
    let s := scanAttempt env date email attempt (campgroundsOf env attempt)
    let here := s.queries.map fun q => (attempt, q)
    match s.res with
    | .error e => ⟨.error e, 1, here, s.notifies, []⟩
    | .ok (some pr) => ⟨.ok (some pr), 1, here, s.notifies, []⟩
    | .ok none =>
      let rest := pollLoop env date interval email (attempt + 1) fuel
      ⟨rest.res, 1 + rest.searches, here ++ rest.availQueries,
        s.notifies + rest.notifies,
        (if 0 < fuel then [interval] else []) ++ rest.sleeps⟩

/-- `poll_availability(park_name, date, interval, email, max_attempts)`:
the loop starting from `attempts = 0`.  (The park name only feeds the
search query text; its effect is already captured by `env.searchResp`.) -/
def poll_availability (env : Env) (date : String) (interval : Nat)
    (email : Option String) (max_attempts : Nat) : PollOut :=
  pollLoop env date interval email 0 max_attempts

/-- Test environment: attempt 0 resolves one site-less campground; later
attempts resolve three campgrounds of which the second has one available
site on 2024-07-15. -/
def envHit : Env where
  searchResp a :=
    if a = 0 then ⟨200, [⟨some "100", some "Lower Pines"⟩]⟩
    else ⟨200, [⟨some "100", some "Lower Pines"⟩, ⟨some "233", some "Upper Pines"⟩,
      ⟨some "999", some "North Pines"⟩]⟩
  availResp a i :=
    if a = 1 ∧ i = some "233" then
      ⟨200, some [("A1", ⟨[("20240715", "Available")], some (Jv.str "A1"),
        some (Jv.str "Tent")⟩)]⟩
    else ⟨200, some []⟩
  mailOk := true

/-- Test environment: the search endpoint always answers 404, so every
attempt resolves zero campgrounds. -/
def envSearchDown : Env where
  searchResp _ := ⟨404, [⟨some "1", some "X"⟩]⟩
  availResp _ _ := ⟨200, some []⟩
  mailOk := true

/-- Test environment: the search succeeds but matches nothing. -/
def envNoResults : Env where
  searchResp _ := ⟨200, []⟩
  availResp _ _ := ⟨200, some []⟩
  mailOk := true

/-- Test environment: every attempt resolves one campground with no
available site. -/
def envOneCampground : Env where
  searchResp _ := ⟨200, [⟨some "233", some "Upper Pines"⟩]⟩
  availResp _ _ := ⟨200, some []⟩
  mailOk := true

/-- A successful search response whose single result element has a name
but no `data-entity-id` attribute. -/
def respMissingId : SearchResponse := ⟨200, [⟨none, some "Upper Pines"⟩]⟩

/-- An availability response with one site available on 2024-07-15 and
one available only on 2024-07-16 of the same month. -/
def respTwoDays : AvailResponse :=
  ⟨200, some [("A1", ⟨[("20240715", "Available")], some (Jv.str "A1"),
      some (Jv.str "Tent")⟩),
    ("B2", ⟨[("20240716", "Available")], some (Jv.str "B2"),
      some (Jv.str "RV")⟩)]⟩

/-- An availability response whose single available site has id "42" and
neither a `site` nor a `type` field. -/
def respSite42 : AvailResponse :=
  ⟨200, some [("42", ⟨[("20240715", "Available")], none, none⟩)]⟩

/-- An availability response whose single available site carries a
present-but-empty `site` field and a present-but-null `type` field. -/
def respPresentEmpty : AvailResponse :=
  ⟨200, some [("7", ⟨[("20240715", "Available")], some (Jv.str ""),
    some Jv.null⟩)]⟩

instance {ε α : Type} [DecidableEq ε] [DecidableEq α] : DecidableEq (Except ε α) :=
  fun a b =>
  match a, b with
  | .error e, .error f =>
    if h : e = f then .isTrue (by rw [h]) else .isFalse fun c => h (Except.error.inj c)
  | .error _, .ok _ => .isFalse fun c => Except.noConfusion c
  | .ok _, .error _ => .isFalse fun c => Except.noConfusion c
  | .ok x, .ok y =>
    if h : x = y then .isTrue (by rw [h]) else .isFalse fun c => h (Except.ok.inj c)

/-- Scanning a campground list in which every campground reports no
available site queries each campground in order, never notifies, and
produces no result. -/
theorem scanAttempt_all_empty (env : Env) (date : String) (email : Option String)
    (attempt : Nat) (l : List Campground)
    (h : ∀ cg ∈ l, check_availability (env.availResp attempt cg.id) date = .ok []) :
    scanAttempt env date email attempt l = ⟨l.map Campground.id, 0, .ok none⟩ := by
  induction l with
  | nil => rfl
  | cons cg rest ih =>
    have hcg := h cg (List.mem_cons_self cg rest)
    have hrest := ih fun c hc => h c (List.mem_cons_of_mem cg hc)
    simp [scanAttempt, hcg, hrest]

/-- Scanning a campground list that starts with site-less campgrounds and
then one with a non-empty site list stops at that campground: exactly the
leading campgrounds and the hit are queried, the campgrounds after the
hit are not, and the hit produces the result. -/
theorem scanAttempt_hit (env : Env) (date : String) (email : Option String)
    (attempt : Nat) (pre post : List Campground) (hitCg : Campground)
    (S : List Site)
    (hpre : ∀ cg ∈ pre, check_availability (env.availResp attempt cg.id) date = .ok [])
    (hhit : check_availability (env.availResp attempt hitCg.id) date = .ok S)
    (hS : S ≠ []) :
    scanAttempt env date email attempt (pre ++ hitCg :: post) =
      ⟨pre.map Campground.id ++ [hitCg.id],
        if email.isSome then 1 else 0,
        .ok (some ⟨hitCg.name, S, date⟩)⟩ := by
  induction pre with
  | nil =>
    have hne : S.isEmpty = false := by
      cases S with
      | nil => exact absurd rfl hS
      | cons a t => rfl
    simp [scanAttempt, hhit, hne]
  | cons cg rest ih =>
    have hcg := hpre cg (List.mem_cons_self cg rest)
    have hrest := ih fun c hc => hpre c (List.mem_cons_of_mem cg hc)
    simp [scanAttempt, hcg, hrest]

/-- A scan that produces a result produced it from a non-empty site list. -/
theorem scanAttempt_res_some (env : Env) (date : String) (email : Option String)
    (attempt : Nat) (l : List Campground) (pr : PollResult)
    (h : (scanAttempt env date email attempt l).res = .ok (some pr)) :
    pr.available_sites ≠ [] := by
  induction l with
  | nil => simp [scanAttempt] at h
  | cons cg rest ih =>
    rw [scanAttempt] at h
    cases hc : check_availability (env.availResp attempt cg.id) date with
    | error e => rw [hc] at h; simp at h
    | ok sites =>
      rw [hc] at h
      by_cases hs : sites.isEmpty
      · simp only [hs, if_pos] at h
        exact ih h
      · simp only [hs, if_neg, Bool.false_eq_true, not_false_eq_true] at h
        simp only [Except.ok.injEq, Option.some.injEq] at h
        rw [← h]
        simpa [List.isEmpty_iff] using hs

/-- When every attempt resolves zero campgrounds, the loop runs through
all its remaining attempts, issues one search query per attempt and no
availability query, never notifies, sleeps between consecutive attempts
only, and returns no result. -/
theorem pollLoop_all_empty (env : Env) (date : String) (interval : Nat)
    (email : Option String) (h : ∀ n, campgroundsOf env n = []) :
    ∀ (fuel attempt : Nat),
      pollLoop env date interval email attempt fuel =
        ⟨.ok none, fuel, [], 0, List.replicate (fuel - 1) interval⟩ := by
  intro fuel
  induction fuel with
  | zero => intro attempt; rfl
  | succ f ih =>
    intro attempt
    have hscan : scanAttempt env date email attempt (campgroundsOf env attempt) =
        ⟨[], 0, .ok none⟩ := by
      rw [h attempt]; rfl
    rw [pollLoop]
    simp only [hscan, ih (attempt + 1)]
    cases f with
    | zero => rfl
    | succ k => simp [List.replicate_succ, Nat.add_comm]

/-- Safety of the loop: it starts at most as many attempts as it has fuel,
returns no result exactly when the fuel is used up with no hit, and any
result it returns carries a non-empty site list. -/
theorem pollLoop_invariant (env : Env) (date : String) (interval : Nat)
    (email : Option String) :
    ∀ (fuel attempt : Nat),
      (pollLoop env date interval email attempt fuel).searches ≤ fuel ∧
      ((pollLoop env date interval email attempt fuel).res = .ok none →
        (pollLoop env date interval email attempt fuel).searches = fuel) ∧
      (∀ pr, (pollLoop env date interval email attempt fuel).res = .ok (some pr) →
        pr.available_sites ≠ []) := by
  intro fuel
  induction fuel with
  | zero =>
    intro attempt
    exact ⟨Nat.le_refl 0, fun _ => rfl, fun pr hpr => by simp [pollLoop] at hpr⟩
  | succ f ih =>
    intro attempt
    rw [pollLoop]
    cases hres : (scanAttempt env date email attempt (campgroundsOf env attempt)).res with
    | error e =>
      simp only [hres]
      exact ⟨Nat.le_add_left 1 f, fun c => by simp at c, fun pr hpr => by simp at hpr⟩
    | ok o =>
      cases o with
      | some pr =>
        simp only [hres]
        refine ⟨Nat.le_add_left 1 f, fun c => by simp at c, fun q hq => ?_⟩
        have : q = pr := by simpa using hq.symm
        subst this
        exact scanAttempt_res_some env date email attempt _ q hres
      | none =>
        simp only [hres]
        obtain ⟨h1, h2, h3⟩ := ih (attempt + 1)
        refine ⟨by omega, fun c => ?_, fun q hq => h3 q hq⟩
        have := h2 c
        omega

/-- When the first `n` attempts after the starting one resolve only
site-less campgrounds, and in the `n`-th attempt the campground list
splits as `pre ++ hitCg :: post` with every campground of `pre` site-less
and `hitCg` reporting the non-empty list `S`, the loop stops at `hitCg`:
it returns the hit, issues `n + 1` search queries, queries availability
for the earlier attempts in full and only up to `hitCg` in the final
attempt, notifies once when an email is configured and never otherwise,
and sleeps `n` times. -/
theorem pollLoop_firstHit (env : Env) (date : String) (interval : Nat)
    (email : Option String) (pre post : List Campground) (hitCg : Campground)
    (S : List Site) (hS : S ≠ []) :
    ∀ (n attempt fuel : Nat), n < fuel →
    (∀ m, m < n → ∀ cg ∈ campgroundsOf env (attempt + m),
        check_availability (env.availResp (attempt + m) cg.id) date = .ok []) →
    campgroundsOf env (attempt + n) = pre ++ hitCg :: post →
    (∀ cg ∈ pre, check_availability (env.availResp (attempt + n) cg.id) date = .ok []) →
    check_availability (env.availResp (attempt + n) hitCg.id) date = .ok S →
    pollLoop env date interval email attempt fuel =
      ⟨.ok (some ⟨hitCg.name, S, date⟩), n + 1,
        ((List.range n).flatMap fun m =>
            (campgroundsOf env (attempt + m)).map fun cg => (attempt + m, cg.id))
          ++ ((pre.map fun cg => (attempt + n, cg.id)) ++ [(attempt + n, hitCg.id)]),
        if email.isSome then 1 else 0,
        List.replicate n interval⟩ := by
  intro n
  induction n with
  | zero =>
    intro attempt fuel hf hearly hsplit hpre hhit
    obtain ⟨f, rfl⟩ : ∃ f, fuel = f + 1 := ⟨fuel - 1, by omega⟩
    rw [Nat.add_zero] at hsplit hpre hhit
    have hscan := scanAttempt_hit env date email attempt pre post hitCg S hpre hhit hS
    rw [← hsplit] at hscan
    rw [pollLoop]
    simp only [hscan]
    simp [List.map_map, Function.comp]
  | succ n ih =>
    intro attempt fuel hf hearly hsplit hpre hhit
    obtain ⟨f, rfl⟩ : ∃ f, fuel = f + 1 := ⟨fuel - 1, by omega⟩
    have e : ∀ m : Nat, attempt + 1 + m = attempt + (m + 1) := fun m => by omega
    have hfpos : 0 < f := by omega
    have h0 : ∀ cg ∈ campgroundsOf env attempt,
        check_availability (env.availResp attempt cg.id) date = .ok [] := by
      have := hearly 0 (Nat.succ_pos n)
      simpa using this
    have hscan := scanAttempt_all_empty env date email attempt _ h0
    have hrec := ih (attempt + 1) f (by omega)
      (fun m hm => by rw [e m]; exact hearly (m + 1) (by omega))
      (by rw [e n]; exact hsplit)
      (by rw [e n]; exact hpre)
      (by rw [e n]; exact hhit)
    rw [pollLoop]
    simp only [hscan, hrec]
    simp only [e]
    simp [List.range_succ_eq_map, List.flatMap_cons, List.flatMap_map,
      List.map_map, Function.comp, List.append_assoc, List.replicate_succ,
      hfpos, Nat.add_comm]

/-- C1: for every poll invocation, if the availability checker returns the
non-empty site sequence `S` for the K-th campground in resolver order
(the split `pre ++ hitCg :: post` with `pre.length = K`) on the N-th
attempt, while every earlier attempt and every earlier campground of that
attempt reports no sites, then `poll_availability` returns a result whose
sites are exactly `S` and whose campground name is that campground's
name, the notifier is invoked at most once, and no campground after the
K-th in that attempt is queried for availability: every availability
query of attempt N targets one of the first K+1 campgrounds. -/
theorem poll_first_nonempty_campground_wins (env : Env) (date : String)
    (interval : Nat) (email : Option String) (max_attempts N K : Nat)
    (pre post : List Campground) (hitCg : Campground) (S : List Site)
    (hNf : N < max_attempts)
    (hearly : ∀ m, m < N → ∀ cg ∈ campgroundsOf env m,
        check_availability (env.availResp m cg.id) date = .ok [])
    (hsplit : campgroundsOf env N = pre ++ hitCg :: post)
    (hK : pre.length = K)
    (hpre : ∀ cg ∈ pre, check_availability (env.availResp N cg.id) date = .ok [])
    (hhit : check_availability (env.availResp N hitCg.id) date = .ok S)
    (hS : S ≠ []) :
    (poll_availability env date interval email max_attempts).res =
        .ok (some ⟨hitCg.name, S, date⟩) ∧
    (poll_availability env date interval email max_attempts).notifies ≤ 1 ∧
    ∀ q ∈ (poll_availability env date interval email max_attempts).availQueries,
      q.1 = N → q.2 ∈ pre.map Campground.id ++ [hitCg.id] := by
  have h := pollLoop_firstHit env date interval email pre post hitCg S hS N 0
      max_attempts hNf (by simpa using hearly) (by simpa using hsplit)
      (by simpa using hpre) (by simpa using hhit)
  simp only [Nat.zero_add] at h
  refine ⟨?_, ?_, ?_⟩
  · rw [poll_availability, h]
  · rw [poll_availability, h]
    cases email <;> simp
  · intro q hq hqN
    rw [poll_availability, h] at hq
    rcases List.mem_append.1 hq with h1 | h2
    · rcases List.mem_flatMap.1 h1 with ⟨m, hm, hq2⟩
      rcases List.mem_map.1 hq2 with ⟨cg, hcg, rfl⟩
      have hmN : m < N := List.mem_range.1 hm
      simp only at hqN
      omega
    · rcases List.mem_append.1 h2 with h3 | h4
      · rcases List.mem_map.1 h3 with ⟨cg, hcg, rfl⟩
        exact List.mem_append.2 (Or.inl (List.mem_map.2 ⟨cg, hcg, rfl⟩))
      · rw [List.mem_singleton] at h4
        subst h4
        exact List.mem_append.2 (Or.inr (List.mem_singleton.2 rfl))

/-- C1 witness: in `envHit` with date 2024-07-15 and three allowed
attempts, the hit of attempt 1 at the second campground ("Upper Pines")
is returned, one notification is sent, and attempt 1 queries only the
first two campgrounds. -/
theorem poll_first_nonempty_campground_wins_witness :
    (poll_availability envHit "2024-07-15" 0 (some "u@v.w") 3).res =
        .ok (some ⟨"Upper Pines", [⟨"A1", Jv.str "A1", Jv.str "Tent"⟩],
          "2024-07-15"⟩) ∧
    (poll_availability envHit "2024-07-15" 0 (some "u@v.w") 3).notifies ≤ 1 ∧
    ∀ q ∈ (poll_availability envHit "2024-07-15" 0 (some "u@v.w") 3).availQueries,
      q.1 = 1 → q.2 ∈ [some "100", some "233"] :=
  poll_first_nonempty_campground_wins envHit "2024-07-15" 0 (some "u@v.w") 3 1 1
    [⟨some "100", "Lower Pines"⟩] [⟨some "999", "North Pines"⟩]
    ⟨some "233", "Upper Pines"⟩ [⟨"A1", Jv.str "A1", Jv.str "Tent"⟩]
    (by decide) (by decide) (by decide) (by decide) (by decide) (by decide)
    (by decide)

/-- C2: for every environment in which the resolver yields zero
campgrounds on every attempt, `poll_availability` performs exactly
`max_attempts` attempts (search queries), issues no availability query,
never notifies, returns absent, and sleeps for `interval` exactly between
consecutive attempts — `max_attempts - 1` times, none after the last. -/
theorem poll_zero_campgrounds_exhausts_attempts (env : Env) (date : String)
    (interval : Nat) (email : Option String) (max_attempts : Nat)
    (h : ∀ n, campgroundsOf env n = []) :
    poll_availability env date interval email max_attempts =
      ⟨.ok none, max_attempts, [], 0,
        List.replicate (max_attempts - 1) interval⟩ :=
  pollLoop_all_empty env date interval email h max_attempts 0

/-- C2 witness: with a search endpoint that always answers 404, three
attempts at interval 5 return absent after exactly 3 search queries and
sleeps [5, 5]. -/
theorem poll_zero_campgrounds_exhausts_attempts_witness :
    poll_availability envSearchDown "2024-07-15" 5 none 3 =
      ⟨.ok none, 3, [], 0, [5, 5]⟩ :=
  poll_zero_campgrounds_exhausts_attempts envSearchDown "2024-07-15" 5 none 3
    fun n => rfl

/-- C8: a poll invocation with `max_attempts = 0` returns absent
immediately: zero search queries, zero availability queries, zero
notifications, zero sleeps. -/
theorem poll_zero_max_attempts_no_queries (env : Env) (date : String)
    (interval : Nat) (email : Option String) :
    poll_availability env date interval email 0 = ⟨.ok none, 0, [], 0, []⟩ :=
  rfl

/-- C9: throughout every poll invocation the number of attempts started
never exceeds `max_attempts` (so the attempt counter stays at most
`max_attempts`), an absent return happens exactly at `max_attempts`
fruitless attempts, and a returned result carries a non-empty site list
(the engine stops on the first non-empty hit). -/
theorem poll_attempts_invariant (env : Env) (date : String) (interval : Nat)
    (email : Option String) (max_attempts : Nat) :
    (poll_availability env date interval email max_attempts).searches ≤
        max_attempts ∧
    ((poll_availability env date interval email max_attempts).res = .ok none →
      (poll_availability env date interval email max_attempts).searches =
        max_attempts) ∧
    (∀ pr,
      (poll_availability env date interval email max_attempts).res =
          .ok (some pr) →
      pr.available_sites ≠ []) :=
  pollLoop_invariant env date interval email max_attempts 0

/-- C9 witness: the invariant instantiated at `envHit` with three allowed
attempts. -/
theorem poll_attempts_invariant_witness :
    (poll_availability envHit "2024-07-15" 0 (some "u@v.w") 3).searches ≤ 3 ∧
    ((poll_availability envHit "2024-07-15" 0 (some "u@v.w") 3).res = .ok none →
      (poll_availability envHit "2024-07-15" 0 (some "u@v.w") 3).searches = 3) ∧
    (∀ pr,
      (poll_availability envHit "2024-07-15" 0 (some "u@v.w") 3).res =
          .ok (some pr) →
      pr.available_sites ≠ []) :=
  poll_attempts_invariant envHit "2024-07-15" 0 (some "u@v.w") 3

/-- On a valid date, a 200 status, and a parsed body, `check_availability`
returns the response-ordered collection of the sites marked "Available"
under the hyphen-stripped date key. -/
theorem check_availability_ok (resp : AvailResponse)
    (l : List (String × SiteData)) (date : String)
    (hd : parse_date date ≠ none) (hst : resp.status = 200)
    (hb : resp.campsites = some l) :
    check_availability resp date = .ok (l.filterMap fun p =>
      if getD p.2.availabilities (dateKey date) "" = "Available" then
        some (mkSite p.1 p.2)
      else none) := by
  simp [check_availability, Option.isNone_iff_eq_none, hd, hst, hb]

/-- A raw record on the success path that is marked "Available" for the
target day contributes its site to the result. -/
theorem check_availability_mem (resp : AvailResponse)
    (l : List (String × SiteData)) (date sid : String) (sd : SiteData)
    (hd : parse_date date ≠ none) (hst : resp.status = 200)
    (hb : resp.campsites = some l) (hp : (sid, sd) ∈ l)
    (hav : getD sd.availabilities (dateKey date) "" = "Available") :
    ∃ sites, check_availability resp date = .ok sites ∧ mkSite sid sd ∈ sites := by
  refine ⟨_, check_availability_ok resp l date hd hst hb, ?_⟩
  rw [List.mem_filterMap]
  exact ⟨(sid, sd), hp, by rw [if_pos hav]⟩

/-- C3: `check_availability` returns exactly the sites whose status entry
for the target-day key equals the literal "Available": a site is in the
result precisely when some raw record carries that marker for the target
day, so a site available only on other days of the queried month, with
any other status, or with no status for the target day never appears. -/
theorem check_availability_filters_exact_day (resp : AvailResponse)
    (l : List (String × SiteData)) (date : String)
    (hd : parse_date date ≠ none) (hst : resp.status = 200)
    (hb : resp.campsites = some l) :
    ∃ sites, check_availability resp date = .ok sites ∧
      ∀ s : Site, s ∈ sites ↔
        ∃ p ∈ l, getD p.2.availabilities (dateKey date) "" = "Available" ∧
          s = mkSite p.1 p.2 := by
  refine ⟨_, check_availability_ok resp l date hd hst hb, fun s => ?_⟩
  rw [List.mem_filterMap]
  constructor
  · rintro ⟨p, hp, hf⟩
    by_cases hc : getD p.2.availabilities (dateKey date) "" = "Available"
    · rw [if_pos hc] at hf
      exact ⟨p, hp, hc, (Option.some.inj hf).symm⟩
    · rw [if_neg hc] at hf
      cases hf
  · rintro ⟨p, hp, hc, rfl⟩
    exact ⟨p, hp, by rw [if_pos hc]⟩

/-- C3 witness: on `respTwoDays` and date 2024-07-15 the result is
characterised by the target-day marker, so the site available only on
2024-07-16 is excluded. -/
theorem check_availability_filters_exact_day_witness :
    ∃ sites, check_availability respTwoDays "2024-07-15" = .ok sites ∧
      ∀ s : Site, s ∈ sites ↔
        ∃ p ∈ [("A1", (⟨[("20240715", "Available")], some (Jv.str "A1"),
              some (Jv.str "Tent")⟩ : SiteData)),
            ("B2", ⟨[("20240716", "Available")], some (Jv.str "B2"),
              some (Jv.str "RV")⟩)],
          getD p.2.availabilities (dateKey "2024-07-15") "" = "Available" ∧
            s = mkSite p.1 p.2 :=
  check_availability_filters_exact_day respTwoDays
    [("A1", ⟨[("20240715", "Available")], some (Jv.str "A1"),
      some (Jv.str "Tent")⟩),
     ("B2", ⟨[("20240716", "Available")], some (Jv.str "B2"),
      some (Jv.str "RV")⟩)]
    "2024-07-15" (by decide) rfl rfl

/-- C4: a raw record, available on the target day, that is missing its
name field surfaces with display name "Site " followed by its id (id "42"
gives "Site 42"), and one missing its type field surfaces with type
"Unknown". -/
theorem check_availability_default_fields (resp : AvailResponse)
    (l : List (String × SiteData)) (date sid : String) (sd : SiteData)
    (hd : parse_date date ≠ none) (hst : resp.status = 200)
    (hb : resp.campsites = some l) (hp : (sid, sd) ∈ l)
    (hav : getD sd.availabilities (dateKey date) "" = "Available") :
    ∃ sites, check_availability resp date = .ok sites ∧ mkSite sid sd ∈ sites ∧
      (sd.site = none → (mkSite sid sd).site_name = Jv.str ("Site " ++ sid)) ∧
      (sd.stype = none → (mkSite sid sd).site_type = Jv.str "Unknown") := by
  obtain ⟨sites, h1, h2⟩ :=
    check_availability_mem resp l date sid sd hd hst hb hp hav
  exact ⟨sites, h1, h2, fun h => by simp [mkSite, h], fun h => by simp [mkSite, h]⟩

/-- C4 witness: the record with id "42" and neither name nor type field
surfaces as site_name "Site 42" and site_type "Unknown". -/
theorem check_availability_default_fields_witness :
    ∃ sites, check_availability respSite42 "2024-07-15" = .ok sites ∧
      mkSite "42" ⟨[("20240715", "Available")], none, none⟩ ∈ sites ∧
      ((⟨[("20240715", "Available")], none, none⟩ : SiteData).site = none →
        (mkSite "42" ⟨[("20240715", "Available")], none, none⟩).site_name =
          Jv.str ("Site " ++ "42")) ∧
      ((⟨[("20240715", "Available")], none, none⟩ : SiteData).stype = none →
        (mkSite "42" ⟨[("20240715", "Available")], none, none⟩).site_type =
          Jv.str "Unknown") :=
  check_availability_default_fields respSite42
    [("42", ⟨[("20240715", "Available")], none, none⟩)] "2024-07-15" "42"
    ⟨[("20240715", "Available")], none, none⟩
    (by decide) rfl rfl (by decide) (by decide)

/-- C10: the fallback values apply only when the corresponding key is
absent: a present name or type field — even empty or null — surfaces
verbatim in the result. -/
theorem check_availability_verbatim_present_fields (resp : AvailResponse)
    (l : List (String × SiteData)) (date sid : String) (sd : SiteData)
    (hd : parse_date date ≠ none) (hst : resp.status = 200)
    (hb : resp.campsites = some l) (hp : (sid, sd) ∈ l)
    (hav : getD sd.availabilities (dateKey date) "" = "Available") :
    ∃ sites, check_availability resp date = .ok sites ∧ mkSite sid sd ∈ sites ∧
      (∀ v, sd.site = some v → (mkSite sid sd).site_name = v) ∧
      (∀ v, sd.stype = some v → (mkSite sid sd).site_type = v) := by
  obtain ⟨sites, h1, h2⟩ :=
    check_availability_mem resp l date sid sd hd hst hb hp hav
  exact ⟨sites, h1, h2, fun v h => by simp [mkSite, h],
    fun v h => by simp [mkSite, h]⟩

/-- C10 witness: a present-but-empty name field surfaces as the empty
string, not "Site 7", and a present-but-null type field surfaces as null,
not "Unknown". -/
theorem check_availability_verbatim_present_fields_witness :
    ∃ sites, check_availability respPresentEmpty "2024-07-15" = .ok sites ∧
      mkSite "7" ⟨[("20240715", "Available")], some (Jv.str ""), some Jv.null⟩
        ∈ sites ∧
      (∀ v, (⟨[("20240715", "Available")], some (Jv.str ""),
          some Jv.null⟩ : SiteData).site = some v →
        (mkSite "7" ⟨[("20240715", "Available")], some (Jv.str ""),
          some Jv.null⟩).site_name = v) ∧
      (∀ v, (⟨[("20240715", "Available")], some (Jv.str ""),
          some Jv.null⟩ : SiteData).stype = some v →
        (mkSite "7" ⟨[("20240715", "Available")], some (Jv.str ""),
          some Jv.null⟩).site_type = v) :=
  check_availability_verbatim_present_fields respPresentEmpty
    [("7", ⟨[("20240715", "Available")], some (Jv.str ""), some Jv.null⟩)]
    "2024-07-15" "7"
    ⟨[("20240715", "Available")], some (Jv.str ""), some Jv.null⟩
    (by decide) rfl rfl (by decide) (by decide)

/-- C6 (amended): `search_campgrounds` never raises: any non-success
response status yields the empty sequence, and on a success status the
returned campgrounds are exactly those of the result entries whose name
element is present — an entry missing its name is skipped, while an
entry missing only its id is kept, carrying an absent id. -/
theorem search_campgrounds_error_policy (resp : SearchResponse) :
    (resp.status ≠ 200 → search_campgrounds resp = []) ∧
    (resp.status = 200 → ∀ cg, cg ∈ search_campgrounds resp ↔
      ∃ e ∈ resp.results, ∃ t, e.nameText = some t ∧
        cg = ⟨e.entity_id, strip t⟩) := by
  constructor
  · intro h
    simp [search_campgrounds, h]
  · intro h cg
    rw [search_campgrounds, if_neg (by simp [h]), List.mem_filterMap]
    constructor
    · rintro ⟨e, he, hf⟩
      cases hn : e.nameText with
      | none => rw [hn] at hf; cases hf
      | some t =>
        rw [hn] at hf
        exact ⟨e, he, t, hn, (Option.some.inj hf).symm⟩
    · rintro ⟨e, he, t, hn, rfl⟩
      exact ⟨e, he, by rw [hn]⟩

/-- C6 witness: a 404 search response yields no campground, and on a
success response a campground with an absent id is in the output exactly
because its entry carries a name. -/
theorem search_campgrounds_error_policy_witness :
    search_campgrounds ⟨404, [⟨some "1", some "X"⟩]⟩ = [] ∧
    (Campground.mk none "Upper Pines" ∈ search_campgrounds respMissingId ↔
      ∃ e ∈ respMissingId.results, ∃ t, e.nameText = some t ∧
        Campground.mk none "Upper Pines" = ⟨e.entity_id, strip t⟩) :=
  ⟨(search_campgrounds_error_policy ⟨404, [⟨some "1", some "X"⟩]⟩).1 (by decide),
   (search_campgrounds_error_policy respMissingId).2 rfl ⟨none, "Upper Pines"⟩⟩

/-- C6 counterexample: the single result entry of `respMissingId` is
missing its id, yet it is not skipped — the returned sequence consists of
it, carrying an absent id. -/
theorem search_campgrounds_missing_id_kept :
    (∀ e ∈ respMissingId.results, e.entity_id = none) ∧
    search_campgrounds respMissingId = [⟨none, "Upper Pines"⟩] := by
  decide

/-- C7: `send_notification` with an empty site sequence returns false and
hands nothing to the mail transport; the transport is engaged, exactly
once, only when the site sequence is non-empty. -/
theorem send_notification_empty_no_transport (mailOk : Bool)
    (email campground_name date : String) (sites : List Site) :
    (sites = [] →
      send_notification mailOk email campground_name sites date = (false, 0)) ∧
    (sites ≠ [] →
      (send_notification mailOk email campground_name sites date).2 = 1) := by
  constructor
  · rintro rfl
    rfl
  · intro h
    cases sites with
    | nil => exact absurd rfl h
    | cons a t => rfl

/-- C7 witness: the empty sequence returns (false, no transport call); a
one-site sequence engages the transport once. -/
theorem send_notification_empty_no_transport_witness :
    send_notification true "u@v.w" "Upper Pines" [] "2024-07-15" = (false, 0) ∧
    (send_notification true "u@v.w" "Upper Pines"
      [⟨"A1", Jv.str "A1", Jv.str "Tent"⟩] "2024-07-15").2 = 1 :=
  ⟨(send_notification_empty_no_transport true "u@v.w" "Upper Pines"
      "2024-07-15" []).1 rfl,
   (send_notification_empty_no_transport true "u@v.w" "Upper Pines"
      "2024-07-15" [⟨"A1", Jv.str "A1", Jv.str "Tent"⟩]).2 (by decide)⟩

/-- C5 (code evidence): "2024-13-01" is not a valid calendar date, yet
with a resolver that yields zero campgrounds `poll_availability` silently
returns absent for it — after issuing its search query — and with a
resolver that yields a campground the ValueError surfaces only after the
first search query was issued, never before polling begins. -/
theorem malformed_date_not_fatal_before_query :
    parse_date "2024-13-01" = none ∧
    poll_availability envNoResults "2024-13-01" 0 none 1 =
      ⟨.ok none, 1, [], 0, []⟩ ∧
    poll_availability envOneCampground "2024-13-01" 0 none 1 =
      ⟨.error (), 1, [], 0, []⟩ :=
  ⟨rfl, rfl, rfl⟩

end NPS
